import Mathlib

/-!
Shallow embedding of the namespace runtime of the Gaea MySQL proxy
(file `proxy/server/namespace.go`), together with proofs about its
construction, policy lookups, close path and backend health probes.

Go maps are embedded as association lists with insert-or-replace
semantics; Go `nil`-pointer dereferences and panics are made explicit
through `Option` and `Except`; external collaborators (the fingerprint
functions, the IP parser, the charset tables, the router, the
connection pools) are passed in as oracle parameters, following the
interface list of the design document (§6).
-/

namespace Gaea

/-- Association-list lookup, the embedding of a Go map read `m[k]`:
the first binding of the key wins, a missing key yields `none`
(the zero value in Go). -/
def mapLookup {α : Type} : List (String × α) → String → Option α
  | [], _ => none
  | (k2, v) :: rest, k => if k2 = k then some v else mapLookup rest k

/-- Association-list insert-or-replace, the embedding of a Go map
write `m[k] = v`. -/
def mapInsert {α : Type} : List (String × α) → String → α → List (String × α)
  | [], k, v => [(k, v)]
  | (k2, v2) :: rest, k, v =>
    if k2 = k then (k, v) :: rest else (k2, v2) :: mapInsert rest k v

/-- Whitespace predicate of Go's `strings.TrimSpace` restricted to the
Latin-1 range (the characters `unicode.IsSpace` accepts there):
tab, newline, vertical tab, form feed, carriage return, space,
next line, and no-break space. -/
def isSpaceGo (c : Char) : Bool :=
  c == ' ' || c == '\t' || c == '\n' || c == Char.ofNat 11 ||
  c == Char.ofNat 12 || c == '\r' || c == Char.ofNat 133 || c == Char.ofNat 160

/-- Character-list core of `strings.TrimSpace`: drop the whitespace
run at both ends. -/
def trimCharList (l : List Char) : List Char :=
  ((l.dropWhile isSpaceGo).reverse.dropWhile isSpaceGo).reverse

/-- Embedding of Go's `strings.TrimSpace`. -/
def trimSpace (s : String) : String :=
  String.mk (trimCharList s.data)

/-- Modelled from the spec: the `backend.StatusCode` enum of the backend
package (not under `src/`): "Status — enum {UP, DOWN}". -/
inductive StatusCode
  | UP
  | DOWN
deriving DecidableEq, Repr

/-- Modelled from the spec: the `util/cache.LRUCache` collaborator
(§4.5): an LRU store of fixed capacity whose `set` evicts the
least-recently-used entry on overflow, with `setIfAbsent`, `items`
snapshots and `clear`. Entries are kept least-recently-used first. -/
structure LRUCache where
  capacity : Nat
  entries : List (String × String)
deriving DecidableEq, Repr

def LRUCache.new (cap : Nat) : LRUCache := ⟨cap, []⟩

def LRUCache.set (c : LRUCache) (k v : String) : LRUCache :=
  let removed := c.entries.filter (fun kv => kv.1 ≠ k)
  let appended := removed ++ [(k, v)]
  ⟨c.capacity,
    if c.capacity < appended.length then appended.drop (appended.length - c.capacity)
    else appended⟩

def LRUCache.get (c : LRUCache) (k : String) : Option String :=
  mapLookup c.entries k

def LRUCache.setIfAbsent (c : LRUCache) (k v : String) : LRUCache :=
  if (c.get k).isSome then c else c.set k v

def LRUCache.items (c : LRUCache) : List (String × String) :=
  c.entries

def LRUCache.clear (c : LRUCache) : LRUCache :=
  ⟨c.capacity, []⟩

/-- Constants of `namespace.go` (lines 37-52). -/
def namespaceDelayClose : Nat := 60

def defaultSQLCacheCapacity : Nat := 64

def defaultPlanCacheCapacity : Nat := 128

def defaultSlowSQLTime : Int := 1000

def defaultMaxSqlExecuteTime : Int := 0

def defaultMaxSqlResultSize : Int := 10000

def defaultTimeAfterNoAlive : Int := 8

def defaultMaxClientConnections : Int := 100000000

/-- Modelled from the spec: the user-flag constants of the `models`
package (`models.ReadWrite`, `models.ReadWriteSplit`,
`models.StatisticUser`, not under `src/`); the exact numerals are
immaterial to every property proved below. -/
def modelsReadWrite : Int := 1

def modelsReadWriteSplit : Int := 1

def modelsStatisticUser : Int := 1

/-- Runtime user properties (`UserProperty`, namespace.go lines 54-59). -/
structure UserProperty where
  rwFlag : Int
  rwSplit : Int
  otherProperty : Int
deriving DecidableEq, Repr

/-- User entry of a `models.Namespace` configuration record. -/
structure UserConfig where
  userName : String
  rwFlag : Int
  rwSplit : Int
  otherProperty : Int
deriving DecidableEq, Repr

/-- Slice entry of the configuration (`models.Slice`): name and the
master/slave/statistic-slave endpoint lists. -/
structure SliceConfig where
  name : String
  master : String
  slaves : List String
  statisticSlaves : List String
deriving DecidableEq, Repr

/-- Global-sequence entry of the configuration. -/
structure SequenceConfig where
  sliceName : String
  db : String
  table : String
  pkName : String
deriving DecidableEq, Repr

/-- Embedded slice object: the source `backend.Slice` is an external
collaborator; the namespace layer only stores it under its (trimmed)
name, so the embedding keeps the parsed configuration. -/
structure BSlice where
  cfg : SliceConfig
deriving DecidableEq, Repr

/-- Configuration record (`models.Namespace`) restricted to the fields
`NewNamespace` reads. Go maps arrive as association lists. -/
structure NamespaceConfig where
  name : String
  openGeneralLog : Bool
  blackSQL : List String
  slowSQLTime : String
  maxSqlExecuteTime : Int
  maxSqlResultSize : Int
  allowedDBS : List (String × Bool)
  defaultPhyDBS : List (String × String)
  allowedIP : List String
  defaultCharset : String
  defaultCollation : String
  users : List UserConfig
  slices : List SliceConfig
  globalSequences : List SequenceConfig
  maxClientConnections : Int
  downAfterNoAlive : Int
  secondsBehindMaster : Nat
  checkSelectLock : Bool
  defaultSlice : String
deriving DecidableEq, Repr

/-- External collaborator functions consumed by the namespace core
(design document §6): the fingerprinter, the IP-rule parser of
`util.ParseIPInfo`, the charset/collation tables of the `mysql`
package, the backend pool builders and the router constructor. Each
is passed in as an oracle; `IPInfo` values are kept opaque as the
string token the oracle returns. -/
structure Ext where
  getFingerprint : String → String
  getMd5 : String → String
  parseIPInfo : String → Except String String
  defaultCharset : String
  defaultCollationId : Nat
  charsetIds : String → Option Nat
  collationNames : String → Option Nat
  verifyCharset : String → String → Except String Unit
  parseMaster : String → Except String Unit
  parseSlave : List String → Except String Unit
  newRouter : NamespaceConfig → Except String Unit

/-- Namespace runtime object (`Namespace` struct, namespace.go
lines 61-90). -/
structure Namespace where
  name : String
  allowedDBs : List (String × Bool)
  defaultPhyDBs : List (String × String)
  sqls : List (String × String)
  slowSQLTime : Int
  allowips : List String
  slices : List (String × BSlice)
  userProperties : List (String × UserProperty)
  defaultCharset : String
  defaultCollationID : Nat
  openGeneralLog : Bool
  maxSqlExecuteTime : Int
  maxSqlResultSize : Int
  defaultSlice : String
  downAfterNoAlive : Int
  secondsBehindMaster : Nat
  slowSQLCache : LRUCache
  errorSQLCache : LRUCache
  backendSlowSQLCache : LRUCache
  backendErrorSQLCache : LRUCache
  planCache : LRUCache
  maxClientConnections : Int
  checkSelectLock : Bool
deriving DecidableEq, Repr

/-- Digit run of `strconv.ParseInt`: all characters must be decimal
digits and there must be at least one. -/
def digitsToNat : List Char → Option Nat
  | [] => none
  | [c] => if c.isDigit then some (c.toNat - 48) else none
  | c :: rest =>
    if c.isDigit then
      match digitsToNat rest with
      | none => none
      | some n => some ((c.toNat - 48) * 10 ^ rest.length + n)
    else none

/-- Embedding of `strconv.ParseInt(str, 10, 64)`: an optional sign,
a non-empty decimal digit run, and a 64-bit range check. -/
def parseIntGo (s : String) : Except String Int :=
  match s.data with
  | [] => .error "invalid syntax"
  | c :: rest =>
    let signed : Bool × List Char :=
      if c = '-' then (true, rest)
      else if c = '+' then (false, rest)
      else (false, c :: rest)
    match digitsToNat signed.2 with
    | none => .error "invalid syntax"
    | some n =>
      let v : Int := if signed.1 then -(n : Int) else (n : Int)
      if v < -(2 ^ 63) ∨ 2 ^ 63 - 1 < v then .error "value out of range"
      else .ok v

/-- Embedding of `parseSlowSQLTime` (namespace.go lines 824-837). -/
def parseSlowSQLTime (str : String) : Except String Int :=
  if str = "" then .ok defaultSlowSQLTime
  else
    match parseIntGo str with
    | .error e => .error e
    | .ok t => if t < 0 then .error "less than zero" else .ok t

/-- Loop body of `parseBlackSqls` (namespace.go lines 812-820): trim
the entry, skip it when empty, otherwise store
`md5(fingerprint(sql))` as key with the fingerprint as value. -/
def parseBlackSqlsStep (ext : Ext) (sqlMap : List (String × String)) (sql : String) :
    List (String × String) :=
  let sql2 := trimSpace sql
  if sql2.isEmpty then sqlMap
  else
    let fingerprint := ext.getFingerprint sql2
    let m := ext.getMd5 fingerprint
    mapInsert sqlMap m fingerprint

/-- Embedding of `parseBlackSqls` (namespace.go lines 810-822). -/
def parseBlackSqls (ext : Ext) (sqls : List String) : List (String × String) :=
  sqls.foldl (parseBlackSqlsStep ext) []

/-- Embedding of `parseAllowIps` (namespace.go lines 794-808). -/
def parseAllowIps (ext : Ext) : List String → Except String (List String)
  | [] => .ok []
  | ipStr :: rest =>
    let ipStr2 := trimSpace ipStr
    if ipStr2.isEmpty then parseAllowIps ext rest
    else
      match ext.parseIPInfo ipStr2 with
      | .error e => .error e
      | .ok ipInfo =>
        match parseAllowIps ext rest with
        | .error e => .error e
        | .ok ips => .ok (ipInfo :: ips)

/-- Embedding of `parseCharset` (namespace.go lines 839-861); the
charset/collation tables of the `mysql` package are oracle calls. -/
def parseCharset (ext : Ext) (charset collation : String) : Except String (String × Nat) :=
  if charset = "" ∧ collation = "" then .ok (ext.defaultCharset, ext.defaultCollationId)
  else if collation = "" then
    match ext.charsetIds charset with
    | none => .error "invalid charset"
    | some collationID => .ok (charset, collationID)
  else
    match ext.verifyCharset charset collation with
    | .error e => .error e
    | .ok _ =>
      match ext.collationNames collation with
      | none => .error "invalid collation"
      | some collationID => .ok (charset, collationID)

/-- Check loop of `parseDefaultPhyDB` in logic-database mode: every
allowed DB must be a key of the configured map. -/
def checkAllowedHavePhy (defaultPhyDBs : List (String × String)) :
    List (String × Bool) → Except String Unit
  | [] => .ok ()
  | (db, _) :: rest =>
    if (mapLookup defaultPhyDBs db).isNone then .error ("db " ++ db ++ " have no phy db")
    else checkAllowedHavePhy defaultPhyDBs rest

/-- Embedding of `parseDefaultPhyDB` (namespace.go lines 863-880):
an empty configured map yields the identity over the allowed DBs,
otherwise every allowed DB must be mapped. -/
def parseDefaultPhyDB (defaultPhyDBs : List (String × String))
    (allowedDBs : List (String × Bool)) : Except String (List (String × String)) :=
  if defaultPhyDBs.isEmpty then
    .ok (allowedDBs.map (fun kv => (kv.1, kv.1)))
  else
    match checkAllowedHavePhy defaultPhyDBs allowedDBs with
    | .error e => .error e
    | .ok _ => .ok defaultPhyDBs

/-- Embedding of `parseSlice` (namespace.go lines 503-529): charset
assignment and the pool builders are collaborator calls; any pool
construction error aborts. -/
def parseSlice (ext : Ext) (cfg : SliceConfig) : Except String BSlice :=
  match ext.parseMaster cfg.master with
  | .error e => .error e
  | .ok _ =>
    match ext.parseSlave cfg.slaves with
    | .error e => .error e
    | .ok _ =>
      match ext.parseSlave cfg.statisticSlaves with
      | .error e => .error e
      | .ok _ => .ok ⟨cfg⟩

/-- Embedding of `parseSlices` (namespace.go lines 531-548): trim each
slice name, reject duplicates, assemble each slice. -/
def parseSlices (ext : Ext) : List SliceConfig → List (String × BSlice) →
    Except String (List (String × BSlice))
  | [], slices => .ok slices
  | v :: rest, slices =>
    let name := trimSpace v.name
    if (mapLookup slices name).isSome then .error ("duplicate slice [" ++ name ++ "]")
    else
      match parseSlice ext { v with name := name } with
      | .error e => .error e
      | .ok s => parseSlices ext rest (mapInsert slices name s)

/-- Embedding of `doCheckSlice` seen from the construction path
(namespace.go lines 585-647): the three supervisor workers are spawned
asynchronously and the function itself unconditionally returns `nil`. -/
def doCheckSliceE (_slice : BSlice) : Except String Unit := .ok ()

/-- Cancellation token created by `checkSlicesStatus`
(`context.WithCancel(context.TODO())`). -/
structure SuperContext where
  cancelled : Bool
deriving DecidableEq, Repr

/-- Embedding of `checkSlicesStatus` (namespace.go lines 550-569):
walk the slices, start their supervisors, and cancel the shared
context only when a `doCheckSlice` call fails (it never does) or a
panic is recovered. Returns the context the workers keep observing. -/
def checkSlicesStatusE : List (String × BSlice) → SuperContext × Except String Unit
  | [] => (⟨false⟩, .ok ())
  | (_, s) :: rest =>
    match doCheckSliceE s with
    | .error e => (⟨true⟩, .error e)
    | .ok _ => checkSlicesStatusE rest

/-- Sequence-registration loop of `NewNamespace` (lines 196-204): each
global sequence must name an existing slice; on failure the slice name
is reported (and, in the source, the tracked `err` variable is NOT
assigned on this path). -/
def checkSequences (slices : List (String × BSlice)) :
    List SequenceConfig → Except String Unit
  | [] => .ok ()
  | v :: rest =>
    if (mapLookup slices v.sliceName).isSome then checkSequences slices rest
    else .error v.sliceName

/-- Identity of a construction failure, one constructor per `return
nil, err` site of `NewNamespace`; each carries the underlying error
text before the `fmt.Errorf` wrapping. -/
inductive ConstructErr
  | slowSQL (msg : String)
  | defaultPhyDB (msg : String)
  | allowIps (msg : String)
  | charset (msg : String)
  | slices (msg : String)
  | checkSlices (msg : String)
  | router (msg : String)
  | seqSliceNotFound (sliceName : String)
  | negativeDownAfterNoAlive
deriving DecidableEq, Repr

instance {ε α : Type} [DecidableEq ε] [DecidableEq α] : DecidableEq (Except ε α)
  | .ok x, .ok y =>
    if h : x = y then isTrue (by rw [h]) else isFalse (by intro hc; cases hc; exact h rfl)
  | .ok _, .error _ => isFalse (by intro h; cases h)
  | .error _, .ok _ => isFalse (by intro h; cases h)
  | .error e, .error f =>
    if h : e = f then isTrue (by rw [h]) else isFalse (by intro hc; cases hc; exact h rfl)

/-- Outcome of `NewNamespace`: the returned `(*Namespace, error)` pair
(`result` is `.ok` exactly when the error is `nil`, and the source
returns a nil pointer on every error path), plus whether the deferred
`namespace.Close(false)` observed a non-nil local `err` and ran. -/
structure NewNamespaceResult where
  result : Except ConstructErr Namespace
  closeCalled : Bool
deriving DecidableEq, Repr

/-- Trimmed copy of `AllowedDBS` built at lines 142-146. -/
def buildAllowedDBs (cfg : NamespaceConfig) : List (String × Bool) :=
  cfg.allowedDBS.foldl (fun m kv => mapInsert m (trimSpace kv.1) kv.2) []

/-- Trimmed copy of `DefaultPhyDBS` built at lines 148-151. -/
def buildPhyDBs (cfg : NamespaceConfig) : List (String × String) :=
  cfg.defaultPhyDBS.foldl (fun m kv => mapInsert m (trimSpace kv.1) (trimSpace kv.2)) []

/-- User-property map built at lines 170-174. -/
def buildUserProperties (cfg : NamespaceConfig) : List (String × UserProperty) :=
  cfg.users.foldl
    (fun m u => mapInsert m u.userName ⟨u.rwFlag, u.rwSplit, u.otherProperty⟩) []

/-- Embedding of `NewNamespace` (namespace.go lines 97-226). The steps
run in source order; every `return nil, fmt.Errorf(...)` that follows
an assignment to the function-scoped `err` fires the deferred
`Close(false)` (`closeCalled = true`), while the two returns that do
not assign `err` — the unknown global-sequence slice at line 199 and
the negative `downAfterNoAlive` at line 215 — leave the deferred close
idle. The `maxClientConnections` branch at lines 207-211 tests the
still-zero field of the partially built namespace, not the
configuration value, exactly as the source does. -/
def NewNamespaceF (ext : Ext) (cfg : NamespaceConfig) : NewNamespaceResult :=
  let sqls := parseBlackSqls ext cfg.blackSQL
  match parseSlowSQLTime cfg.slowSQLTime with
  | .error e => ⟨.error (.slowSQL e), true⟩
  | .ok slowSQLTime =>
  let maxSqlExecuteTime :=
    if cfg.maxSqlExecuteTime ≤ 0 then defaultMaxSqlExecuteTime else cfg.maxSqlExecuteTime
  let maxSqlResultSize :=
    if cfg.maxSqlResultSize ≤ 0 ∧ cfg.maxSqlResultSize ≠ -1 then defaultMaxSqlResultSize
    else cfg.maxSqlResultSize
  let allowDBs := buildAllowedDBs cfg
  match parseDefaultPhyDB (buildPhyDBs cfg) allowDBs with
  | .error e => ⟨.error (.defaultPhyDB e), true⟩
  | .ok defaultPhyDBs =>
  match parseAllowIps ext cfg.allowedIP with
  | .error e => ⟨.error (.allowIps e), true⟩
  | .ok allowips =>
  match parseCharset ext cfg.defaultCharset cfg.defaultCollation with
  | .error e => ⟨.error (.charset e), true⟩
  | .ok (defaultCharset, defaultCollationID) =>
  let userProperties := buildUserProperties cfg
  match parseSlices ext cfg.slices [] with
  | .error e => ⟨.error (.slices e), true⟩
  | .ok slices =>
  match (checkSlicesStatusE slices).2 with
  | .error e => ⟨.error (.checkSlices e), true⟩
  | .ok _ =>
  match ext.newRouter cfg with
  | .error e => ⟨.error (.router e), true⟩
  | .ok _ =>
  match checkSequences slices cfg.globalSequences with
  | .error sliceName => ⟨.error (.seqSliceNotFound sliceName), false⟩
  | .ok _ =>
  -- lines 207-211: the field was initialized to the zero value and
  -- never assigned from the config before this test
  let maxClientConnectionsField : Int := 0
  let maxClientConnections :=
    if maxClientConnectionsField ≤ 0 then defaultMaxClientConnections
    else cfg.maxClientConnections
  if cfg.downAfterNoAlive < 0 then ⟨.error .negativeDownAfterNoAlive, false⟩
  else
  let downAfterNoAlive :=
    if cfg.downAfterNoAlive = 0 then defaultTimeAfterNoAlive else cfg.downAfterNoAlive
  ⟨.ok
    { name := cfg.name
      allowedDBs := allowDBs
      defaultPhyDBs := defaultPhyDBs
      sqls := sqls
      slowSQLTime := slowSQLTime
      allowips := allowips
      slices := slices
      userProperties := userProperties
      defaultCharset := defaultCharset
      defaultCollationID := defaultCollationID
      openGeneralLog := cfg.openGeneralLog
      maxSqlExecuteTime := maxSqlExecuteTime
      maxSqlResultSize := maxSqlResultSize
      defaultSlice := cfg.defaultSlice
      downAfterNoAlive := downAfterNoAlive
      secondsBehindMaster := cfg.secondsBehindMaster
      slowSQLCache := LRUCache.new defaultSQLCacheCapacity
      errorSQLCache := LRUCache.new defaultSQLCacheCapacity
      backendSlowSQLCache := LRUCache.new defaultSQLCacheCapacity
      backendErrorSQLCache := LRUCache.new defaultSQLCacheCapacity
      planCache := LRUCache.new defaultPlanCacheCapacity
      maxClientConnections := maxClientConnections
      checkSelectLock := cfg.checkSelectLock }, false⟩

/-- Embedding of `IsSQLAllowed` (namespace.go lines 292-306): returns
the boolean answer together with the request context after the
`fingerprint` key is set. -/
def IsSQLAllowed (ext : Ext) (n : Namespace) (reqCtx : List (String × String))
    (sql : String) : Bool × List (String × String) :=
  if n.sqls.isEmpty then (true, reqCtx)
  else
    let fingerprint := ext.getFingerprint sql
    let reqCtx2 := mapInsert reqCtx "fingerprint" fingerprint
    let m := ext.getMd5 fingerprint
    if (mapLookup n.sqls m).isSome then (false, reqCtx2) else (true, reqCtx2)

/-- Embedding of `GetDefaultPhyDB` (namespace.go lines 323-333). -/
def GetDefaultPhyDB (n : Namespace) (dbname : String) : Except String String :=
  if dbname = "" then .ok ""
  else
    match mapLookup n.defaultPhyDBs dbname with
    | none => .error ("invalid db " ++ dbname)
    | some phyDB => .ok phyDB

/-- Embedding of `IsAllowedDB` (namespace.go lines 308-312). -/
def IsAllowedDB (n : Namespace) (dbname : String) : Bool :=
  match mapLookup n.allowedDBs dbname with
  | some allowed => allowed
  | none => false

/-- Embedding of `IsAllowWrite` (namespace.go lines 264-267): the map
read yields a nil `*UserProperty` for an unknown user and the
`.RWFlag` dereference panics; the panic is modelled as `none`. -/
def IsAllowWrite (n : Namespace) (user : String) : Option Bool :=
  match mapLookup n.userProperties user with
  | none => none
  | some up => some (decide (up.rwFlag = modelsReadWrite))

/-- Embedding of `IsRWSplit` (lines 269-272), panic as `none`. -/
def IsRWSplit (n : Namespace) (user : String) : Option Bool :=
  match mapLookup n.userProperties user with
  | none => none
  | some up => some (decide (up.rwSplit = modelsReadWriteSplit))

/-- Embedding of `IsStatisticUser` (lines 274-277), panic as `none`. -/
def IsStatisticUser (n : Namespace) (user : String) : Option Bool :=
  match mapLookup n.userProperties user with
  | none => none
  | some up => some (decide (up.otherProperty = modelsStatisticUser))

/-- Embedding of `GetUserProperty` (lines 279-282), panic as `none`. -/
def GetUserProperty (n : Namespace) (user : String) : Option Int :=
  match mapLookup n.userProperties user with
  | none => none
  | some up => some up.otherProperty

/-- Embedding of `SetCachedPlan` (lines 362-365); plans are opaque. -/
def SetCachedPlan (n : Namespace) (db sql p : String) : Namespace :=
  { n with planCache := n.planCache.setIfAbsent (db ++ "|" ++ sql) p }

/-- Embedding of `SetSlowSQLFingerprint` (lines 367-370). -/
def SetSlowSQLFingerprint (n : Namespace) (md5 fingerprint : String) : Namespace :=
  { n with slowSQLCache := n.slowSQLCache.set md5 fingerprint }

/-- Observable side effects of the close path, in order. -/
inductive CloseEvent
  | sleepSeconds (n : Nat)
  | closeSlice (name : String)
  | clearCache (name : String)
  | cancelSupervisors
deriving DecidableEq, Repr

/-- Embedding of `Namespace.Close` (namespace.go lines 483-501): an
optional 60 s drain sleep, a `Close` on every slice (log-and-continue
on error), then a `Clear` of the four fingerprint caches. The
returned event list records everything the method does. -/
def closeNamespace (n : Namespace) (delay : Bool) : Namespace × List CloseEvent :=
  let sleepEvents := if delay then [CloseEvent.sleepSeconds namespaceDelayClose] else []
  let sliceEvents := n.slices.map (fun kv => CloseEvent.closeSlice kv.1)
  ({ n with
      slowSQLCache := n.slowSQLCache.clear
      errorSQLCache := n.errorSQLCache.clear
      backendSlowSQLCache := n.backendSlowSQLCache.clear
      backendErrorSQLCache := n.backendErrorSQLCache.clear },
   sleepEvents ++ sliceEvents ++
     [CloseEvent.clearCache "slowSQLCache", CloseEvent.clearCache "errorSQLCache",
      CloseEvent.clearCache "backendSlowSQLCache", CloseEvent.clearCache "backendErrorSQLCache"])

/-- Namespace runtime together with the cancellation token its
supervisor workers observe. -/
structure SystemState where
  ns : Namespace
  ctx : SuperContext
deriving DecidableEq, Repr

/-- `Close` acting on the whole runtime: the method has no reference
to the cancel function created inside `checkSlicesStatus`, so the
token is whatever it already was. -/
def closeSystem (s : SystemState) (delay : Bool) : SystemState × List CloseEvent :=
  let (ns2, events) := closeNamespace s.ns delay
  (⟨ns2, s.ctx⟩, events)

/-- One turn of the supervisor worker select loop inside
`doCheckSlice` (lines 592-639): the worker returns exactly when the
context is cancelled, otherwise it probes its pools and loops. -/
def supervisorReturns (ctx : SuperContext) : Bool :=
  ctx.cancelled

/-- Outcome of one probe-loop iteration against a pool, as decided by
the backend collaborator: whether `v.Get(ctx)` yields a usable
connection, and whether `conn.Ping()` / `conn.Reconnect()` succeed. -/
structure Attempt where
  getOk : Bool
  pingOk : Bool
  reconnectOk : Bool
deriving DecidableEq, Repr

/-- Instrumented result of `getInstanceStatus`: the returned status
and connection, plus the second at which each `Get` attempt started
and the total seconds slept. Connections are named by the iteration
index that produced them. -/
structure ProbeResult where
  status : StatusCode
  conn : Option Nat
  attemptTimes : List Nat
  endTime : Nat
deriving DecidableEq, Repr

/-- Loop of `getInstanceStatus` (namespace.go lines 675-709):
`sleepTime` starts at 1 and doubles after every failed iteration; the
loop guard is `sleepTime < downAfterNoAlive`. A `Get` failure recycles
and clears the connection and sleeps; a ping or reconnect success
breaks with status UP; a ping-and-reconnect failure recycles the
(still non-nil) connection and sleeps. Leaving by the guard yields
DOWN, matching the final `err != nil || sleepTime >= downAfterNoAlive`
classification of the source. -/
def probeLoop (D : Int) (env : Nat → Attempt) (k sleepTime : Nat) (hs : 0 < sleepTime)
    (t : Nat) (conn : Option Nat) (times : List Nat) : ProbeResult :=
  if h : (sleepTime : Int) < D then
    let a := env k
    let times2 := times ++ [t]
    if a.getOk then
      if a.pingOk then ⟨.UP, some k, times2, t⟩
      else if a.reconnectOk then ⟨.UP, some k, times2, t⟩
      else probeLoop D env (k + 1) (sleepTime * 2) (by omega) (t + sleepTime) (some k) times2
    else
      probeLoop D env (k + 1) (sleepTime * 2) (by omega) (t + sleepTime) none times2
  else
    ⟨.DOWN, conn, times, t⟩
termination_by (D - sleepTime).toNat
decreasing_by all_goals omega

/-- Embedding of `getInstanceStatus` with full instrumentation:
`D` is `namespace.downAfterNoAlive`. -/
def getInstanceStatusFull (D : Int) (env : Nat → Attempt) : ProbeResult :=
  probeLoop D env 0 1 (by decide) 0 none []

/-- The `(status, conn)` pair the source function returns. -/
def getInstanceStatus (D : Int) (env : Nat → Attempt) : StatusCode × Option Nat :=
  ((getInstanceStatusFull D env).status, (getInstanceStatusFull D env).conn)

/-- Embedding of `shouldCheckSlaveDataSyncStatus` (namespace.go lines
571-583), exactly as written: the first guard skips the check when
this is the master OR when the probe status is UP; the second guard
skips it when the slice master status map holds DOWN at index 0; the
check finally requires a non-zero `secondsBehindMaster`. -/
def shouldCheckSlaveDataSyncStatus (nsSecondsBehindMaster : Nat)
    (crruentStatus : StatusCode) (masterStatus0 : Option StatusCode)
    (isMaster : Bool) : Bool :=
  if isMaster || crruentStatus = StatusCode.UP then false
  else if masterStatus0 = some StatusCode.DOWN then false
  else nsSecondsBehindMaster ≠ 0

/-- Go value retrieved from a result row (`interface\x7b\x7d` restricted to
the cases the source type-switches on). -/
inductive GoValue
  | u64 (v : Nat)
  | str (s : String)
  | other
deriving DecidableEq, Repr

/-- Replication state decoded by `GetSlaveStatus` (`SlaveStatus`
struct, namespace.go lines 711-719). -/
structure SlaveStatus where
  secondsBehindMaster : Nat
  slaveIoRunning : String
  slaveSqlRunning : String
  masterLogFile : String
  readMasterLogPos : Nat
  relayMasterLogFile : String
  execMasterLogPos : Nat
deriving DecidableEq, Repr

/-- Zero value of `SlaveStatus`. -/
def SlaveStatus.zero : SlaveStatus := ⟨0, "", "", "", 0, "", 0⟩

/-- Result of `conn.Execute("show slave status;", 0)`: the field names
in order and the row accessor `GetValueByName`. -/
structure MysqlResult where
  fields : List String
  getValueByName : Nat → String → Except String GoValue

/-- ASCII case folding of a character, the fragment of Go's
`strings.ToLower` exercised by the result field names. -/
def charToLowerGo (c : Char) : Char :=
  if 'A' ≤ c ∧ c ≤ 'Z' then Char.ofNat (c.toNat + 32) else c

/-- Embedding of `strings.ToLower` restricted to ASCII. -/
def toLowerGo (s : String) : String :=
  String.mk (s.data.map charToLowerGo)

/-- Field switch of `GetSlaveStatus` (lines 737-789), including the
type-switch defaults. -/
def updateSlaveStatusField (ss : SlaveStatus) (fieldName : String) (col : GoValue) :
    SlaveStatus :=
  let lower := toLowerGo fieldName
  if lower = "seconds_behind_master" then
    match col with
    | .u64 v => { ss with secondsBehindMaster := v }
    | _ => { ss with secondsBehindMaster := 0 }
  else if lower = "slave_io_running" then
    match col with
    | .str s => { ss with slaveIoRunning := s }
    | _ => { ss with slaveIoRunning := "No" }
  else if lower = "slave_sql_running" then
    match col with
    | .str s => { ss with slaveSqlRunning := s }
    | _ => { ss with slaveSqlRunning := "No" }
  else if lower = "master_log_file" then
    match col with
    | .str s => { ss with masterLogFile := s }
    | _ => { ss with masterLogFile := "" }
  else if lower = "read_master_log_pos" then
    match col with
    | .u64 v => { ss with readMasterLogPos := v }
    | _ => { ss with readMasterLogPos := 0 }
  else if lower = "relay_master_log_file" then
    match col with
    | .str s => { ss with relayMasterLogFile := s }
    | _ => { ss with relayMasterLogFile := "" }
  else if lower = "exec_master_log_pos" then
    match col with
    | .u64 v => { ss with execMasterLogPos := v }
    | _ => { ss with execMasterLogPos := 0 }
  else ss

/-- Field loop of `GetSlaveStatus` (lines 728-790): a `GetValueByName`
failure breaks with the error kept in `err`. -/
def getSlaveStatusLoop (res : MysqlResult) : List String → SlaveStatus →
    SlaveStatus × Option String
  | [], ss => (ss, none)
  | fieldName :: rest, ss =>
    match res.getValueByName 0 fieldName with
    | .error e => (ss, some e)
    | .ok col => getSlaveStatusLoop res rest (updateSlaveStatusField ss fieldName col)

/-- Go runtime faults surfaced by the embedding. -/
inductive GoPanic
  | nilPointerDereference
deriving DecidableEq, Repr

/-- Embedding of `GetSlaveStatus` (lines 721-792). Calling it with the
nil connection that a failed probe leaves behind dereferences the nil
interface inside `conn.Execute` and panics. -/
def GetSlaveStatus (conn : Option Nat) (executeO : Nat → Except String MysqlResult) :
    Except GoPanic (SlaveStatus × Option String) :=
  match conn with
  | none => .error .nilPointerDereference
  | some c =>
    match executeO c with
    | .error e => .ok (SlaveStatus.zero, some e)
    | .ok res => .ok (getSlaveStatusLoop res res.fields SlaveStatus.zero)

/-- Embedding of `slaveIsLagBehand` (namespace.go lines 649-673). -/
def slaveIsLagBehand (conn : Option Nat) (executeO : Nat → Except String MysqlResult)
    (nsSecondsBehindMaster : Nat) : Except GoPanic (Bool × Option String) :=
  match GetSlaveStatus conn executeO with
  | .error p => .error p
  | .ok (_, some e) => .ok (false, some e)
  | .ok (slaveStatus, none) =>
    if nsSecondsBehindMaster < slaveStatus.secondsBehindMaster then .ok (true, none)
    else if slaveStatus.slaveIoRunning ≠ "Yes" then .ok (true, none)
    else if slaveStatus.slaveSqlRunning ≠ "Yes" then .ok (true, none)
    else .ok (false, none)

/-- Body of one supervisor tick for one pool (`doCheckSlice`
lines 598-620): probe the instance, run the lag check when
`shouldCheckSlaveDataSyncStatus` says so, recycle the connection and
return the status that is stored into the group status map. A lag
check reached with a nil connection panics inside `GetSlaveStatus`. -/
def checkPoolOnce (nsSecondsBehindMaster : Nat) (D : Int) (env : Nat → Attempt)
    (executeO : Nat → Except String MysqlResult) (masterStatus0 : Option StatusCode)
    (isMaster : Bool) : Except GoPanic StatusCode :=
  let sc := getInstanceStatus D env
  if shouldCheckSlaveDataSyncStatus nsSecondsBehindMaster sc.1 masterStatus0 isMaster then
    match slaveIsLagBehand sc.2 executeO nsSecondsBehindMaster with
    | .error p => .error p
    | .ok (lag, _) => .ok (if lag then StatusCode.DOWN else sc.1)
  else .ok sc.1

/-! Concrete fixtures used to evaluate the embedding. -/

/-- Oracle bundle whose collaborator calls all succeed; the
fingerprinter is the identity, which is enough to exercise every
namespace-level code path. -/
def extT : Ext where
  getFingerprint := fun s => s
  getMd5 := fun s => s
  parseIPInfo := fun s => .ok s
  defaultCharset := "utf8mb4"
  defaultCollationId := 46
  charsetIds := fun _ => none
  collationNames := fun _ => none
  verifyCharset := fun _ _ => .ok ()
  parseMaster := fun _ => .ok ()
  parseSlave := fun _ => .ok ()
  newRouter := fun _ => .ok ()

/-- Minimal valid configuration record. -/
def cfgBase : NamespaceConfig where
  name := "test"
  openGeneralLog := false
  blackSQL := []
  slowSQLTime := ""
  maxSqlExecuteTime := 0
  maxSqlResultSize := 0
  allowedDBS := []
  defaultPhyDBS := []
  allowedIP := []
  defaultCharset := ""
  defaultCollation := ""
  users := []
  slices := []
  globalSequences := []
  maxClientConnections := 0
  downAfterNoAlive := 0
  secondsBehindMaster := 0
  checkSelectLock := false
  defaultSlice := ""

/-- Environment in which every `Get` attempt fails. -/
def failEnv : Nat → Attempt := fun _ => ⟨false, false, false⟩

/-- Environment in which the first acquisition and ping succeed. -/
def pingOkEnv : Nat → Attempt := fun _ => ⟨true, true, true⟩

/-- `SHOW SLAVE STATUS` answer reporting a healthy replica that is
10 seconds behind its master. -/
def lagTenResult : MysqlResult where
  fields := ["Seconds_Behind_Master", "Slave_IO_Running", "Slave_SQL_Running"]
  getValueByName := fun _ name =>
    if name = "Seconds_Behind_Master" then .ok (.u64 10) else .ok (.str "Yes")

/-- Executor returning `lagTenResult` on any connection. -/
def lagTenExec : Nat → Except String MysqlResult := fun _ => .ok lagTenResult

/-- Namespace extracted from a construction result, with a fallback
for the error case. -/
def resultNamespaceD (r : NewNamespaceResult) (d : Namespace) : Namespace :=
  match r.result with
  | .ok ns => ns
  | .error _ => d

/-- Concrete namespace value used as extraction fallback and as a
base for lookup fixtures. -/
def nsZero : Namespace where
  name := "test"
  allowedDBs := []
  defaultPhyDBs := []
  sqls := []
  slowSQLTime := 1000
  allowips := []
  slices := []
  userProperties := []
  defaultCharset := "utf8mb4"
  defaultCollationID := 46
  openGeneralLog := false
  maxSqlExecuteTime := 0
  maxSqlResultSize := 10000
  defaultSlice := ""
  downAfterNoAlive := 8
  secondsBehindMaster := 0
  slowSQLCache := LRUCache.new defaultSQLCacheCapacity
  errorSQLCache := LRUCache.new defaultSQLCacheCapacity
  backendSlowSQLCache := LRUCache.new defaultSQLCacheCapacity
  backendErrorSQLCache := LRUCache.new defaultSQLCacheCapacity
  planCache := LRUCache.new defaultPlanCacheCapacity
  maxClientConnections := 100000000
  checkSelectLock := false

/-- Configuration asking for 5 client connections. -/
def cfgMaxFive : NamespaceConfig :=
  { cfgBase with maxClientConnections := 5 }

/-- Configuration with one slice named slice-0. -/
def cfgOneSlice : NamespaceConfig :=
  { cfgBase with slices := [⟨"slice-0", "master-dsn", [], []⟩] }

/-- Configuration whose only allowed DB is the empty name, mapped to
the physical name X in logic-database mode. -/
def cfgEmptyName : NamespaceConfig :=
  { cfgBase with allowedDBS := [("", true)], defaultPhyDBS := [("", "X")] }

/-- Configuration with a negative `DownAfterNoAlive`. -/
def cfgNegDown : NamespaceConfig :=
  { cfgBase with downAfterNoAlive := -1 }

/-- Configuration with a malformed `SlowSQLTime`. -/
def cfgBadSlow : NamespaceConfig :=
  { cfgBase with slowSQLTime := "abc" }

/-- Configuration with one allowed DB in identity mode. -/
def cfgDbOne : NamespaceConfig :=
  { cfgBase with allowedDBS := [("db1", true)] }

/-- Configuration with `DownAfterNoAlive = 1`. -/
def cfgDownOne : NamespaceConfig :=
  { cfgBase with downAfterNoAlive := 1 }

/-- The namespace `cfgDbOne` constructs. -/
def nsDbOne : Namespace :=
  resultNamespaceD (NewNamespaceF extT cfgDbOne) nsZero

/-- Namespace holding the parsed one-entry blacklist. -/
def nsBlack : Namespace :=
  { nsZero with sqls := parseBlackSqls extT ["select 1"] }

/-! Helper lemmas about maps and trimming. -/

theorem mapInsert_idem {α : Type} (m : List (String × α)) (k : String) (v : α) :
    mapInsert (mapInsert m k v) k v = mapInsert m k v := by
  induction m with
  | nil => simp [mapInsert]
  | cons hd tl ih =>
    obtain ⟨k2, v2⟩ := hd
    by_cases h : k2 = k
    · simp [mapInsert, h]
    · simp [mapInsert, h, ih]

theorem mapLookup_mem {α : Type} {m : List (String × α)} {k : String} {v : α}
    (h : mapLookup m k = some v) : (k, v) ∈ m := by
  induction m with
  | nil => simp [mapLookup] at h
  | cons hd tl ih =>
    obtain ⟨k2, v2⟩ := hd
    by_cases hk : k2 = k
    · subst hk
      simp [mapLookup] at h
      subst h
      exact List.mem_cons_self _ _
    · simp [mapLookup, hk] at h
      exact List.mem_cons_of_mem _ (ih h)

theorem dropWhile_isSpaceGo_head :
    ∀ (l : List Char) (c : Char) (t : List Char),
      l.dropWhile isSpaceGo = c :: t → isSpaceGo c = false := by
  intro l
  induction l with
  | nil => intro c t h; simp [List.dropWhile] at h
  | cons x xs ih =>
    intro c t h
    by_cases hx : isSpaceGo x
    · rw [List.dropWhile_cons_of_pos hx] at h
      exact ih c t h
    · rw [List.dropWhile_cons_of_neg hx] at h
      cases h
      exact Bool.of_not_eq_true hx

theorem dropWhile_isSpaceGo_idem (l : List Char) :
    (l.dropWhile isSpaceGo).dropWhile isSpaceGo = l.dropWhile isSpaceGo := by
  cases hd : l.dropWhile isSpaceGo with
  | nil => simp
  | cons c t =>
    have hc := dropWhile_isSpaceGo_head l c t hd
    rw [List.dropWhile_cons_of_neg (by simp [hc])]

theorem dropWhile_isSpaceGo_getLast? (l : List Char) (h : l.dropWhile isSpaceGo ≠ []) :
    (l.dropWhile isSpaceGo).getLast? = l.getLast? := by
  induction l with
  | nil => simp at h
  | cons x xs ih =>
    by_cases hx : isSpaceGo x
    · rw [List.dropWhile_cons_of_pos hx] at h ⊢
      have hxs : xs ≠ [] := by
        intro he; rw [he] at h; simp [List.dropWhile] at h
      rw [ih h]
      cases xs with
      | nil => exact absurd rfl hxs
      | cons y ys => simp [List.getLast?_cons_cons]
    · rw [List.dropWhile_cons_of_neg hx]

theorem trimCharList_idem (l : List Char) :
    trimCharList (trimCharList l) = trimCharList l := by
  unfold trimCharList
  set A := l.dropWhile isSpaceGo with hA
  set B := A.reverse.dropWhile isSpaceGo with hB
  have step1 : B.reverse.dropWhile isSpaceGo = B.reverse := by
    cases hBr : B.reverse with
    | nil => rfl
    | cons c2 t3 =>
      have hBne : B ≠ [] := by
        intro h; rw [h] at hBr; simp at hBr
      have hgl : B.getLast? = A.reverse.getLast? := by
        rw [hB]
        exact dropWhile_isSpaceGo_getLast? A.reverse (hB ▸ hBne)
      have hAne : A ≠ [] := by
        intro he
        apply hBne
        rw [hB, he]
        rfl
      obtain ⟨a, t2, hAe⟩ := List.exists_cons_of_ne_nil hAne
      have ha : isSpaceGo a = false := dropWhile_isSpaceGo_head l a t2 (hA ▸ hAe)
      have hglA : A.reverse.getLast? = some a := by
        rw [List.getLast?_reverse, hAe]
        rfl
      have hhead : B.reverse.head? = some a := by
        rw [List.head?_reverse, hgl, hglA]
      rw [hBr] at hhead
      simp only [List.head?_cons, Option.some.injEq] at hhead
      rw [List.dropWhile_cons_of_neg (by simp [hhead, ha])]
  rw [step1, List.reverse_reverse]
  have step2 : B.dropWhile isSpaceGo = B := by
    rw [hB]
    exact dropWhile_isSpaceGo_idem A.reverse
  rw [step2]

theorem trimSpace_idem (s : String) : trimSpace (trimSpace s) = trimSpace s := by
  unfold trimSpace
  simp [trimCharList_idem]

/-! Helper lemmas about the probe loop. -/

theorem probeLoop_allFail (D : Int) (env : Nat → Attempt)
    (hf : ∀ k, (env k).getOk = false) (k sleepTime : Nat) (hs : 0 < sleepTime)
    (t : Nat) (times : List Nat) :
    (probeLoop D env k sleepTime hs t none times).status = StatusCode.DOWN ∧
    (probeLoop D env k sleepTime hs t none times).conn = none := by
  rw [probeLoop]
  split
  next h =>
    simp only [hf k, Bool.false_eq_true, if_false]
    exact probeLoop_allFail D env hf (k + 1) (sleepTime * 2) (by omega) (t + sleepTime)
      (times ++ [t])
  next h =>
    exact ⟨rfl, rfl⟩
termination_by (D - sleepTime).toNat
decreasing_by omega

theorem getInstanceStatusFull_le_one (D : Int) (hD : D ≤ 1) (env : Nat → Attempt) :
    getInstanceStatusFull D env = ⟨StatusCode.DOWN, none, [], 0⟩ := by
  rw [getInstanceStatusFull, probeLoop, dif_neg]
  omega

/-! Helper lemmas about the constructor. -/

theorem newNamespace_ok_fields (ext : Ext) (cfg : NamespaceConfig) (ns : Namespace)
    (h : (NewNamespaceF ext cfg).result = .ok ns) :
    ns.allowedDBs = buildAllowedDBs cfg ∧
    parseDefaultPhyDB (buildPhyDBs cfg) (buildAllowedDBs cfg) = .ok ns.defaultPhyDBs ∧
    ns.maxClientConnections = defaultMaxClientConnections ∧
    ns.downAfterNoAlive =
      (if cfg.downAfterNoAlive = 0 then defaultTimeAfterNoAlive else cfg.downAfterNoAlive) := by
  simp only [NewNamespaceF] at h
  iterate 10 (all_goals (try split at h))
  all_goals (try (exfalso; simp_all; done))
  all_goals (simp only [Except.ok.injEq] at h; subst h; simp_all)

/-! Helper lemmas about the physical-DB map. -/

theorem mapLookup_dupMap {m : List (String × Bool)} {d : String}
    (h : (mapLookup m d).isSome) :
    mapLookup (m.map (fun kv => (kv.1, kv.1))) d = some d := by
  induction m with
  | nil => simp [mapLookup] at h
  | cons hd tl ih =>
    obtain ⟨k, v⟩ := hd
    by_cases hk : k = d
    · subst hk
      simp [mapLookup]
    · simp only [mapLookup, hk, if_false] at h
      simpa [mapLookup, hk] using ih h

theorem checkAllowedHavePhy_ok {phys : List (String × String)}
    {allowed : List (String × Bool)} (h : checkAllowedHavePhy phys allowed = .ok ())
    {d : String} (hd : (mapLookup allowed d).isSome) :
    (mapLookup phys d).isSome := by
  induction allowed with
  | nil => simp [mapLookup] at hd
  | cons hda tl ih =>
    obtain ⟨db, fl⟩ := hda
    unfold checkAllowedHavePhy at h
    by_cases hmiss : (mapLookup phys db).isNone
    · simp [hmiss] at h
    · simp only [hmiss, if_false] at h
      by_cases hk : db = d
      · subst hk
        simpa [Option.isNone_iff_eq_none, Option.isSome_iff_ne_none] using hmiss
      · simp only [mapLookup, hk, if_false] at hd
        exact ih h hd

theorem parseDefaultPhyDB_ok {phys : List (String × String)}
    {allowed : List (String × Bool)} {result : List (String × String)}
    (h : parseDefaultPhyDB phys allowed = .ok result) :
    (phys.isEmpty = true ∧ result = allowed.map (fun kv => (kv.1, kv.1))) ∨
    (phys.isEmpty = false ∧ result = phys ∧ checkAllowedHavePhy phys allowed = .ok ()) := by
  unfold parseDefaultPhyDB at h
  by_cases he : phys.isEmpty
  · left
    simp [he] at h
    exact ⟨he, h.symm⟩
  · right
    simp only [he, if_false] at h
    cases hc : checkAllowedHavePhy phys allowed with
    | error e => rw [hc] at h; simp at h
    | ok u =>
      rw [hc] at h
      simp at h
      exact ⟨by simp [he], h.symm, by simp [hc]⟩

/-! Helper lemmas about the blacklist parser. -/

theorem parseBlackSqlsStep_trim (ext : Ext) (acc : List (String × String)) (s : String) :
    parseBlackSqlsStep ext acc (trimSpace s) = parseBlackSqlsStep ext acc s := by
  simp [parseBlackSqlsStep, trimSpace_idem]

theorem parseBlackSqlsStep_idem (ext : Ext) (acc : List (String × String)) (s : String) :
    parseBlackSqlsStep ext (parseBlackSqlsStep ext acc s) s = parseBlackSqlsStep ext acc s := by
  by_cases h : (trimSpace s).isEmpty
  · simp [parseBlackSqlsStep, h]
  · simp [parseBlackSqlsStep, h, mapInsert_idem]

theorem parseBlackSqls_foldl_trim (ext : Ext) :
    ∀ (l : List String) (acc : List (String × String)),
      (l.map trimSpace).foldl (parseBlackSqlsStep ext) acc = l.foldl (parseBlackSqlsStep ext) acc := by
  intro l
  induction l with
  | nil => intro acc; rfl
  | cons x xs ih =>
    intro acc
    simp only [List.map_cons, List.foldl_cons, parseBlackSqlsStep_trim]
    exact ih _

theorem parseBlackSqls_trim_invariant (ext : Ext) (l : List String) :
    parseBlackSqls ext (l.map trimSpace) = parseBlackSqls ext l :=
  parseBlackSqls_foldl_trim ext l []

theorem parseBlackSqls_dup_collapse (ext : Ext) (s : String) (rest : List String) :
    parseBlackSqls ext (s :: s :: rest) = parseBlackSqls ext (s :: rest) := by
  simp only [parseBlackSqls, List.foldl_cons, parseBlackSqlsStep_idem]

/-! Claim theorems. -/

/-- C1: the source gate `shouldCheckSlaveDataSyncStatus` skips the
replication-lag check whenever the probe status is UP, so with master
UP and threshold 5 a slave that answers PING but reports 10 seconds of
lag ends its tick UP, not DOWN; the lag predicate itself would have
demanded demotion had it been consulted. This exhibits the divergence
between the code and the claimed UP-triggers-lag-check behaviour. -/
theorem lagCheckSkippedWhenSlaveUp :
    shouldCheckSlaveDataSyncStatus 5 StatusCode.UP (some StatusCode.UP) false = false ∧
    checkPoolOnce 5 8 pingOkEnv lagTenExec (some StatusCode.UP) false = .ok StatusCode.UP ∧
    slaveIsLagBehand (some 0) lagTenExec 5 = .ok (true, none) := by
  refine ⟨rfl, ?_, by decide⟩
  simp [checkPoolOnce, getInstanceStatus, getInstanceStatusFull, probeLoop, pingOkEnv,
    shouldCheckSlaveDataSyncStatus]

/-- C2 counterexample: with `downAfterNoAlive = 8` and every
acquisition failing, the probe makes attempts at t = 0, 1, 3 only —
there is no fourth attempt at t = 7 as claimed. -/
theorem backoffThreeAttemptsOnly :
    (getInstanceStatusFull 8 failEnv).attemptTimes = [0, 1, 3] ∧
    (getInstanceStatusFull 8 failEnv).attemptTimes ≠ [0, 1, 3, 7] := by
  have h : getInstanceStatusFull 8 failEnv = ⟨StatusCode.DOWN, none, [0, 1, 3], 7⟩ := by
    simp [getInstanceStatusFull, probeLoop, failEnv]
  rw [h]
  exact ⟨rfl, by decide⟩

/-- C2 amended: with `downAfterNoAlive = 8` and every attempt failing,
the probe makes attempts at t = 0, +1 and +3 (sleeping 1, 2, then 4
seconds after each failure), gives up without a further attempt once
the doubled sleep reaches 8, and returns DOWN with a nil connection
after 7 s of sleeping, within the 8 s envelope; in general, whenever
no acquisition succeeds the probe ends DOWN with no connection. -/
theorem backoffSchedule :
    getInstanceStatusFull 8 failEnv = ⟨StatusCode.DOWN, none, [0, 1, 3], 7⟩ ∧
    (getInstanceStatusFull 8 failEnv).endTime ≤ 8 ∧
    ∀ (D : Int) (env : Nat → Attempt), (∀ k, (env k).getOk = false) →
      (getInstanceStatusFull D env).status = StatusCode.DOWN ∧
      (getInstanceStatusFull D env).conn = none := by
  have h : getInstanceStatusFull 8 failEnv = ⟨StatusCode.DOWN, none, [0, 1, 3], 7⟩ := by
    simp [getInstanceStatusFull, probeLoop, failEnv]
  refine ⟨h, by rw [h]; decide, ?_⟩
  intro D env hf
  exact probeLoop_allFail D env hf 0 1 (by decide) 0 []

/-- C2 witness: the all-failures hypothesis holds for `failEnv` and
the amended theorem applies at `downAfterNoAlive = 4`. -/
theorem backoffScheduleWitness :
    (∀ k, (failEnv k).getOk = false) ∧
    ((getInstanceStatusFull 4 failEnv).status = StatusCode.DOWN ∧
     (getInstanceStatusFull 4 failEnv).conn = none) :=
  ⟨fun _ => rfl, backoffSchedule.2.2 4 failEnv (fun _ => rfl)⟩

/-- C3: the constructor reads the still-zero `maxClientConnections`
field instead of the configuration value, so a configured positive
value (here 5) is ignored and the namespace always ends up with the
10^8 default. -/
theorem maxClientConnectionsConfigIgnored :
    (NewNamespaceF extT cfgMaxFive).result.map (fun ns => ns.maxClientConnections) =
      .ok defaultMaxClientConnections ∧
    (NewNamespaceF extT { cfgMaxFive with maxClientConnections := -3 }).result.map
      (fun ns => ns.maxClientConnections) = .ok defaultMaxClientConnections ∧
    defaultMaxClientConnections = 100000000 ∧ (5 : Int) ≠ 100000000 := by
  refine ⟨by decide, by decide, by decide, by decide⟩

/-- C4 counterexample: on a freshly built namespace with one slice,
`Close(false)` leaves the supervisor cancellation token uncancelled,
emits no cancellation among its effects, and a subsequent supervisor
select round does not return — the claim that close signals
cancellation and stops every supervisor fails on this input. -/
theorem closeDoesNotCancelCounterexample :
    (NewNamespaceF extT cfgOneSlice).result.map (fun ns =>
        (let ctx0 := (checkSlicesStatusE ns.slices).1
         let s := closeSystem ⟨ns, ctx0⟩ false
         (ctx0.cancelled, s.1.ctx.cancelled, supervisorReturns s.1.ctx, s.2)))
      = .ok (false, false, false,
          [CloseEvent.closeSlice "slice-0", CloseEvent.clearCache "slowSQLCache",
           CloseEvent.clearCache "errorSQLCache", CloseEvent.clearCache "backendSlowSQLCache",
           CloseEvent.clearCache "backendErrorSQLCache"]) := by
  decide

/-- C4 amended: `Close` sleeps, closes the slices and clears the four
fingerprint caches but performs no cancellation: the token created by
`checkSlicesStatus` is untouched, a supervisor round returns only when
that token is already cancelled, and `doCheckSlice` never returns the
error that would cancel it during construction — so supervisors keep
running after `Close`. -/
theorem closeLeavesSupervisorsRunning (n : Namespace) (ctx : SuperContext) (delay : Bool) :
    (closeSystem ⟨n, ctx⟩ delay).1.ctx = ctx ∧
    CloseEvent.cancelSupervisors ∉ (closeSystem ⟨n, ctx⟩ delay).2 ∧
    supervisorReturns ctx = ctx.cancelled ∧
    ∀ s : BSlice, doCheckSliceE s = .ok () := by
  refine ⟨rfl, ?_, rfl, fun _ => rfl⟩
  simp only [closeSystem, closeNamespace]
  cases delay <;> simp

/-- C5 counterexample: after seeding the plan cache of a freshly built
namespace, `Close(false)` leaves the plan entry in place while the
slow-SQL cache is empty, refuting the claim that all caches including
the plan cache are empty after close. -/
theorem planCacheSurvivesClose :
    (NewNamespaceF extT cfgBase).result.map (fun ns =>
        ((closeNamespace (SetCachedPlan ns "db1" "sql1" "plan1") false).1.planCache.entries,
         (closeNamespace (SetCachedPlan ns "db1" "sql1" "plan1") false).1.slowSQLCache.entries))
      = .ok ([("db1|sql1", "plan1")], []) ∧
    ([("db1|sql1", "plan1")] : List (String × String)) ≠ [] := by
  refine ⟨by decide, by decide⟩

/-- C5 amended: after `Close(delay)` returns, for either value of
delay, the four fingerprint caches (slow-SQL, error-SQL, backend-slow,
backend-error) are empty; the plan cache is not cleared and keeps its
previous contents. -/
theorem closeClearsOnlyFingerprintCaches (n : Namespace) (delay : Bool) :
    (closeNamespace n delay).1.slowSQLCache.entries = [] ∧
    (closeNamespace n delay).1.errorSQLCache.entries = [] ∧
    (closeNamespace n delay).1.backendSlowSQLCache.entries = [] ∧
    (closeNamespace n delay).1.backendErrorSQLCache.entries = [] ∧
    (closeNamespace n delay).1.planCache = n.planCache := by
  simp [closeNamespace, LRUCache.clear]

/-- C6: with the blacklist parsed from the configured entries,
`IsSQLAllowed` returns true untouched on an empty blacklist; otherwise
it stores the fingerprint of the statement in the request context
under the key fingerprint and answers false exactly when
`md5(fingerprint(sql))` is a key of the blacklist; the parsed
blacklist is invariant under whitespace-trimming of its entries, and
duplicated entries collapse. -/
theorem isSQLAllowedSpec (ext : Ext) (entries : List String) (n : Namespace)
    (hsq : n.sqls = parseBlackSqls ext entries)
    (reqCtx : List (String × String)) (sql : String) :
    (parseBlackSqls ext entries = [] → IsSQLAllowed ext n reqCtx sql = (true, reqCtx)) ∧
    (parseBlackSqls ext entries ≠ [] →
      (IsSQLAllowed ext n reqCtx sql).2 =
        mapInsert reqCtx "fingerprint" (ext.getFingerprint sql) ∧
      ((IsSQLAllowed ext n reqCtx sql).1 = false ↔
        (mapLookup n.sqls (ext.getMd5 (ext.getFingerprint sql))).isSome)) ∧
    parseBlackSqls ext (entries.map trimSpace) = parseBlackSqls ext entries ∧
    (∀ s rest, parseBlackSqls ext (s :: s :: rest) = parseBlackSqls ext (s :: rest)) := by
  refine ⟨?_, ?_, parseBlackSqls_trim_invariant ext entries,
    fun s rest => parseBlackSqls_dup_collapse ext s rest⟩
  · intro he
    simp [IsSQLAllowed, hsq, he]
  · intro hne
    have hni : n.sqls.isEmpty = false := by
      rw [hsq, List.isEmpty_eq_false]
      exact hne
    unfold IsSQLAllowed
    rw [hni]
    simp only [Bool.false_eq_true, if_false]
    constructor
    · split <;> rfl
    · split
      next hl => simp [hl]
      next hl => simp [hl]

/-- C6 witness: the one-entry blacklist fixture satisfies the parsing
hypothesis and the theorem applies to it. -/
theorem isSQLAllowedSpecWitness :
    nsBlack.sqls = parseBlackSqls extT ["select 1"] ∧
    ((parseBlackSqls extT ["select 1"] = [] →
        IsSQLAllowed extT nsBlack [] "select 1" = (true, [])) ∧
     (parseBlackSqls extT ["select 1"] ≠ [] →
        (IsSQLAllowed extT nsBlack [] "select 1").2 =
          mapInsert [] "fingerprint" (extT.getFingerprint "select 1") ∧
        ((IsSQLAllowed extT nsBlack [] "select 1").1 = false ↔
          (mapLookup nsBlack.sqls (extT.getMd5 (extT.getFingerprint "select 1"))).isSome)) ∧
     parseBlackSqls extT (["select 1"].map trimSpace) = parseBlackSqls extT ["select 1"] ∧
     (∀ s rest, parseBlackSqls extT (s :: s :: rest) = parseBlackSqls extT (s :: rest))) :=
  ⟨rfl, isSQLAllowedSpec extT ["select 1"] nsBlack rfl [] "select 1"⟩

/-- C7 counterexample: a successfully constructed namespace whose
allowed-DB set contains the empty name in logic-database mode maps it
to the physical name X, yet `GetDefaultPhyDB ""` short-circuits to the
empty string without error, so the lookup does not return the
configured physical name for this allowed DB. -/
theorem emptyDbNameBypassesPhyMap :
    (NewNamespaceF extT cfgEmptyName).result.map (fun ns =>
        (mapLookup ns.allowedDBs "", mapLookup ns.defaultPhyDBs "", GetDefaultPhyDB ns ""))
      = .ok (some true, some "X", .ok "") ∧
    (Except.ok "" : Except String String) ≠ .ok "X" := by
  refine ⟨by decide, by decide⟩

/-- C7 amended: `GetDefaultPhyDB` returns the empty string without
error on the empty name; an unknown non-empty name yields the
invalid-db error; and every non-empty allowed DB of a successfully
constructed namespace resolves without error — to itself in identity
mode and to the configured physical name in logic-database mode. -/
theorem getDefaultPhyDBSpec (ext : Ext) (cfg : NamespaceConfig) (ns : Namespace)
    (h : (NewNamespaceF ext cfg).result = .ok ns) :
    GetDefaultPhyDB ns "" = .ok "" ∧
    (∀ d, d ≠ "" → mapLookup ns.defaultPhyDBs d = none →
      GetDefaultPhyDB ns d = .error ("invalid db " ++ d)) ∧
    (∀ d, d ≠ "" → (mapLookup ns.allowedDBs d).isSome →
      ∃ phy, GetDefaultPhyDB ns d = .ok phy ∧
        ((buildPhyDBs cfg).isEmpty = true → phy = d) ∧
        ((buildPhyDBs cfg).isEmpty = false → mapLookup (buildPhyDBs cfg) d = some phy)) := by
  obtain ⟨hA, hP, -, -⟩ := newNamespace_ok_fields ext cfg ns h
  refine ⟨by simp [GetDefaultPhyDB], ?_, ?_⟩
  · intro d hd hnone
    simp [GetDefaultPhyDB, hd, hnone]
  · intro d hd hsome
    rw [hA] at hsome
    rcases parseDefaultPhyDB_ok hP with ⟨hemp, hres⟩ | ⟨hemp, hres, hchk⟩
    · have hld : mapLookup ns.defaultPhyDBs d = some d := by
        rw [hres]
        exact mapLookup_dupMap hsome
      refine ⟨d, ?_, ?_, ?_⟩
      · simp [GetDefaultPhyDB, hd, hld]
      · intro _
        rfl
      · intro hcon
        rw [hemp] at hcon
        cases hcon
    · have hphys : (mapLookup (buildPhyDBs cfg) d).isSome := checkAllowedHavePhy_ok hchk hsome
      obtain ⟨phy, hphy⟩ := Option.isSome_iff_exists.mp hphys
      have hld : mapLookup ns.defaultPhyDBs d = some phy := by
        rw [hres]
        exact hphy
      refine ⟨phy, ?_, ?_, ?_⟩
      · simp [GetDefaultPhyDB, hd, hld]
      · intro hcon
        rw [hemp] at hcon
        cases hcon
      · intro _
        exact hphy

/-- C7 witness: the one-DB identity-mode fixture constructs
successfully and the amended theorem applies to it. -/
theorem getDefaultPhyDBSpecWitness :
    (NewNamespaceF extT cfgDbOne).result = .ok nsDbOne ∧
    (GetDefaultPhyDB nsDbOne "" = .ok "" ∧
     (∀ d, d ≠ "" → mapLookup nsDbOne.defaultPhyDBs d = none →
        GetDefaultPhyDB nsDbOne d = .error ("invalid db " ++ d)) ∧
     (∀ d, d ≠ "" → (mapLookup nsDbOne.allowedDBs d).isSome →
        ∃ phy, GetDefaultPhyDB nsDbOne d = .ok phy ∧
          ((buildPhyDBs cfgDbOne).isEmpty = true → phy = d) ∧
          ((buildPhyDBs cfgDbOne).isEmpty = false →
            mapLookup (buildPhyDBs cfgDbOne) d = some phy))) :=
  ⟨by decide, getDefaultPhyDBSpec extT cfgDbOne nsDbOne (by decide)⟩

/-- C8 counterexample: a configuration with `DownAfterNoAlive = -1`
makes `NewNamespace` return an error while the deferred `Close(false)`
never fires, because that return path does not assign the tracked
`err` variable. -/
theorem constructErrorWithoutClose :
    NewNamespaceF extT cfgNegDown =
      ⟨.error ConstructErr.negativeDownAfterNoAlive, false⟩ ∧
    (false : Bool) ≠ true := by
  refine ⟨by decide, by decide⟩

/-- C8 amended: whenever `NewNamespace` returns an error the namespace
pointer is nil (the embedding returns no namespace), and the deferred
`Close(false)` has run on the partial namespace on every error path
except the two that return without assigning `err`: an unknown
global-sequence slice and a negative `downAfterNoAlive`. -/
theorem constructErrorClosePolicy (ext : Ext) (cfg : NamespaceConfig) (e : ConstructErr)
    (b : Bool) (h : NewNamespaceF ext cfg = ⟨.error e, b⟩) :
    b = true ∨ e = ConstructErr.negativeDownAfterNoAlive ∨
      ∃ s, e = ConstructErr.seqSliceNotFound s := by
  simp only [NewNamespaceF] at h
  iterate 10 (all_goals (try split at h))
  all_goals ((cases h) <;> simp)

/-- C8 witness: the malformed slow-SQL-time configuration errors with
the deferred close having run, discharging the amended theorem at a
concrete input. -/
theorem constructErrorClosePolicyWitness :
    NewNamespaceF extT cfgBadSlow = ⟨.error (ConstructErr.slowSQL "invalid syntax"), true⟩ ∧
    (true = true ∨
      ConstructErr.slowSQL "invalid syntax" = ConstructErr.negativeDownAfterNoAlive ∨
      ∃ s, ConstructErr.slowSQL "invalid syntax" = ConstructErr.seqSliceNotFound s) :=
  ⟨by decide,
   constructErrorClosePolicy extT cfgBadSlow (ConstructErr.slowSQL "invalid syntax") true
     (by decide)⟩

/-- C9: for a user absent from `userProperties`, all four lookups
dereference the nil `*UserProperty` the map read produces and panic
(modelled as `none`); none of them yields a boolean or integer. -/
theorem unknownUserLookupsPanic (n : Namespace) (user : String)
    (h : mapLookup n.userProperties user = none) :
    IsAllowWrite n user = none ∧ IsRWSplit n user = none ∧
    IsStatisticUser n user = none ∧ GetUserProperty n user = none := by
  simp [IsAllowWrite, IsRWSplit, IsStatisticUser, GetUserProperty, h]

/-- C9 witness: the empty-user fixture has no entry for alice and the
theorem applies to it. -/
theorem unknownUserLookupsPanicWitness :
    mapLookup nsZero.userProperties "alice" = none ∧
    (IsAllowWrite nsZero "alice" = none ∧ IsRWSplit nsZero "alice" = none ∧
     IsStatisticUser nsZero "alice" = none ∧ GetUserProperty nsZero "alice" = none) :=
  ⟨rfl, unknownUserLookupsPanic nsZero "alice" rfl⟩

/-- C10 counterexample: with `downAfterNoAlive = 1`, a slave-pool tick
with lag checking enabled and the master status not DOWN does not
store DOWN — it dereferences the nil probe connection inside the lag
check and panics, so not every instance is marked DOWN on every
tick. -/
theorem downOneSlaveTickPanics :
    checkPoolOnce 5 1 failEnv lagTenExec (some StatusCode.UP) false =
      .error GoPanic.nilPointerDereference ∧
    (Except.error GoPanic.nilPointerDereference : Except GoPanic StatusCode) ≠
      .ok StatusCode.DOWN := by
  refine ⟨?_, by decide⟩
  simp [checkPoolOnce, getInstanceStatus, getInstanceStatusFull_le_one 1 (le_refl 1),
    shouldCheckSlaveDataSyncStatus, slaveIsLagBehand, GetSlaveStatus]

/-- C10 amended: construction accepts `DownAfterNoAlive = 1` and keeps
it; with it every probe performs zero acquisition attempts and returns
DOWN with a nil connection after no sleeping; master pools, slave
pools with lag checking disabled, and slave pools whose master status
is DOWN are all marked DOWN each tick — but a slave pool with a
non-zero lag threshold and master status not DOWN panics on the nil
probe connection inside the lag check instead of storing DOWN. -/
theorem downAfterNoAliveOneBehavior :
    (∀ env, getInstanceStatusFull 1 env = ⟨StatusCode.DOWN, none, [], 0⟩) ∧
    (NewNamespaceF extT cfgDownOne).result.map (fun ns => ns.downAfterNoAlive) = .ok 1 ∧
    (∀ (sbm : Nat) (env : Nat → Attempt) (executeO : Nat → Except String MysqlResult)
        (masterStatus0 : Option StatusCode),
      checkPoolOnce sbm 1 env executeO masterStatus0 true = .ok StatusCode.DOWN) ∧
    (∀ (env : Nat → Attempt) (executeO : Nat → Except String MysqlResult)
        (masterStatus0 : Option StatusCode),
      checkPoolOnce 0 1 env executeO masterStatus0 false = .ok StatusCode.DOWN) ∧
    (∀ (sbm : Nat) (env : Nat → Attempt) (executeO : Nat → Except String MysqlResult),
      checkPoolOnce sbm 1 env executeO (some StatusCode.DOWN) false = .ok StatusCode.DOWN) ∧
    (∀ (sbm : Nat) (env : Nat → Attempt) (executeO : Nat → Except String MysqlResult)
        (masterStatus0 : Option StatusCode), sbm ≠ 0 →
      masterStatus0 ≠ some StatusCode.DOWN →
      checkPoolOnce sbm 1 env executeO masterStatus0 false =
        .error GoPanic.nilPointerDereference) := by
  have hone : ∀ env : Nat → Attempt, getInstanceStatusFull 1 env =
      ⟨StatusCode.DOWN, none, [], 0⟩ :=
    fun env => getInstanceStatusFull_le_one 1 (le_refl 1) env
  refine ⟨hone, by decide, ?_, ?_, ?_, ?_⟩
  · intro sbm env executeO masterStatus0
    simp [checkPoolOnce, getInstanceStatus, hone env, shouldCheckSlaveDataSyncStatus]
  · intro env executeO masterStatus0
    simp [checkPoolOnce, getInstanceStatus, hone env, shouldCheckSlaveDataSyncStatus]
  · intro sbm env executeO
    simp [checkPoolOnce, getInstanceStatus, hone env, shouldCheckSlaveDataSyncStatus]
  · intro sbm env executeO masterStatus0 hsbm hmst
    simp [checkPoolOnce, getInstanceStatus, hone env, shouldCheckSlaveDataSyncStatus,
      hsbm, hmst, slaveIsLagBehand, GetSlaveStatus]

/-- C10 witness: the panic branch of the amended theorem applies at
the concrete threshold 5 with master status UP. -/
theorem downAfterNoAliveOneBehaviorWitness :
    ((5 : Nat) ≠ 0 ∧ some StatusCode.UP ≠ some StatusCode.DOWN) ∧
    checkPoolOnce 5 1 pingOkEnv lagTenExec (some StatusCode.UP) false =
      .error GoPanic.nilPointerDereference :=
  ⟨⟨by decide, by decide⟩,
   downAfterNoAliveOneBehavior.2.2.2.2.2 5 pingOkEnv lagTenExec (some StatusCode.UP)
     (by decide) (by decide)⟩

end Gaea
